import Mathlib

/-!
Verification of the Bankbot call-lifecycle orchestrator (`src/agent.py`).

Shallow embedding: the pure helpers (`normalize_phone_number`), the retry
loops (`create_sip_participant_with_retry`, `hangup_call_with_retry`), the
dialogue turn (`GreetingAgent.on_start`) and the `entrypoint` orchestration
are translated into executable Lean definitions.  Effects are made explicit:
the behaviour of an external operation is a function from the attempt index
to its outcome, exceptions are `Except` values or explicit outcome
constructors, sleeps and network actions are recorded in traces.
-/

namespace Bankbot

/-- ASCII digit test, modelling the character class `\d` of the regexes in
`normalize_phone_number` (the inputs of interest are ASCII). -/
def isDigitChar (c : Char) : Bool := decide ('0' ≤ c) && decide (c ≤ '9')

/-- Characters kept by the first step `re.sub(r"[^\d+]", "", phone)`:
digits and every `+`, wherever it occurs. -/
def keepDialChar (c : Char) : Bool := isDigitChar c || c == '+'

/-- Models `re.fullmatch(r"\d{10}", phone)`. -/
def isTenDigits (l : List Char) : Bool := l.length == 10 && l.all isDigitChar

/-- Models `phone.startswith("+")`. -/
def startsWithPlus (l : List Char) : Bool :=
  match l with
  | c :: _ => c == '+'
  | [] => false

/-- Models `re.match(r"^\+[1-9]\d{6,14}$", phone)`: a `+`, a non-zero digit,
then 6 to 14 further digits.  (`$` coincides with end-of-string here because
the value being tested contains no newline: it is built from digits and `+`.) -/
def isE164Chars (l : List Char) : Bool :=
  match l with
  | c :: d :: rest =>
      c == '+' && decide ('1' ≤ d) && decide (d ≤ '9') && rest.all isDigitChar
        && decide (6 ≤ rest.length) && decide (rest.length ≤ 14)
  | _ => false

/-- Character-list core of `normalize_phone_number` from `src/agent.py`:
empty check, strip to digits/`+`, `+91` for a bare 10-digit number, prepend
`+` when missing, then E.164 validation. -/
def normChars (l : List Char) : Option (List Char) :=
  if l.isEmpty then none
  else
    let p := l.filter keepDialChar
    let q := if isTenDigits p then '+' :: '9' :: '1' :: p
             else if startsWithPlus p then p
             else '+' :: p
    if isE164Chars q then some q else none

/-- `normalize_phone_number` from `src/agent.py` (lines 47-60): normalizes
and validates a phone number, returning `none` on rejection. -/
def normalize_phone_number (phone : String) : Option String :=
  (normChars phone.data).map (fun l => ⟨l⟩)

-- Sanity checks on concrete inputs.
example : normalize_phone_number "9876543210" = some "+919876543210" := rfl
example : normalize_phone_number "" = none := rfl
example : normalize_phone_number "abc" = none := rfl
example : normalize_phone_number "123" = none := rfl
example : normalize_phone_number "+919876543210" = some "+919876543210" := rfl
example : normalize_phone_number "9876543210+" = none := rfl

/-- Helper: a list of digit characters is kept unchanged by the strip step. -/
theorem filter_keepDialChar_of_digits (l : List Char)
    (h : ∀ c ∈ l, isDigitChar c = true) : l.filter keepDialChar = l := by
  apply List.filter_eq_self.mpr
  intro c hc
  simp [keepDialChar, h c hc]

/-- Claim C6: for every string `D` of exactly 10 digits,
`normalize_phone_number D` returns `some ("+91" ++ D)`. -/
theorem normalize_ten_digit_prefixes_india (D : String)
    (hlen : D.data.length = 10) (hdig : ∀ c ∈ D.data, isDigitChar c = true) :
    normalize_phone_number D = some ("+91" ++ D) := by
  have hne : D.data.isEmpty = false := by
    cases hd : D.data with
    | nil => rw [hd] at hlen; simp at hlen
    | cons a l => simp
  have hfilter : D.data.filter keepDialChar = D.data :=
    filter_keepDialChar_of_digits D.data hdig
  have hten : isTenDigits D.data = true := by
    simp [isTenDigits, hlen, List.all_eq_true]
    exact hdig
  have he164 : isE164Chars ('+' :: '9' :: '1' :: D.data) = true := by
    simp only [isE164Chars, List.all_cons, List.length_cons, hlen]
    simp [List.all_eq_true, isDigitChar]
    intro x hx
    simpa [isDigitChar] using hdig x hx
  have hq : normChars D.data = some ('+' :: '9' :: '1' :: D.data) := by
    simp only [normChars, hne, Bool.false_eq_true, if_false, hfilter, hten,
      if_true, he164]
  have hstr : ("+91" ++ D : String) = ⟨'+' :: '9' :: '1' :: D.data⟩ := by
    cases D
    rfl
  simp [normalize_phone_number, hq, hstr]

/-- Claim C6 witness. -/
theorem normalize_ten_digit_prefixes_india_witness :
    normalize_phone_number "9876543210" = some ("+91" ++ "9876543210") :=
  normalize_ten_digit_prefixes_india "9876543210" (by decide) (by decide)

/-- Claim C7 counterexample: the strip step keeps every `+` (not only a
leading one), so a 10-digit number followed by a stray non-leading `+` is
rejected, while the same input with all non-digit characters removed is
accepted — the two results differ. -/
theorem normalize_strip_plus_counterexample :
    normalize_phone_number "9876543210+" = none ∧
    normalize_phone_number "9876543210" = some "+919876543210" ∧
    normalize_phone_number "9876543210+" ≠ normalize_phone_number "9876543210" := by
  refine ⟨rfl, rfl, ?_⟩
  decide

/-- Helper: on a list without `+`, the strip step keeps exactly the digits. -/
theorem filter_keepDialChar_no_plus (l : List Char) (h : '+' ∉ l) :
    l.filter keepDialChar = l.filter isDigitChar := by
  apply List.filter_congr
  intro c hc
  have hne : (c == '+') = false := by
    simp only [beq_eq_false_iff_ne, ne_eq]
    intro hceq
    exact h (hceq ▸ hc)
  simp [keepDialChar, hne]

/-- Helper: `normChars` on an input without `+` agrees with `normChars` of
the input with all non-digit characters removed. -/
theorem normChars_no_plus (l : List Char) (h : '+' ∉ l) :
    normChars l = normChars (l.filter isDigitChar) := by
  have hfe : l.filter keepDialChar = l.filter isDigitChar :=
    filter_keepDialChar_no_plus l h
  by_cases hl : l = []
  · subst hl; rfl
  · have hne : l.isEmpty = false := by simp [hl]
    by_cases hFnil : l.filter isDigitChar = []
    · simp only [normChars, hne, Bool.false_eq_true, if_false, hfe, hFnil]
      simp [normChars, isTenDigits, startsWithPlus, isE164Chars]
    · have hFne : (l.filter isDigitChar).isEmpty = false := by simp [hFnil]
      have hFilt : (l.filter isDigitChar).filter keepDialChar
          = l.filter isDigitChar := by
        apply filter_keepDialChar_of_digits
        intro c hc
        exact (List.mem_filter.mp hc).2
      simp only [normChars, hne, hFne, Bool.false_eq_true, if_false, hfe, hFilt]

/-- Claim C7 amended: the first step of `normalize_phone_number` removes
every character that is neither a digit nor `+`, keeping every `+` wherever
it occurs (not only a leading one); consequently the result agrees with the
input with all non-digit characters removed only for inputs containing no
`+` at all — an input with a stray non-leading `+` can be rejected. -/
theorem normalize_agrees_with_digit_strip_when_no_plus (s : String)
    (h : '+' ∉ s.data) :
    normalize_phone_number s = normalize_phone_number ⟨s.data.filter isDigitChar⟩ := by
  simp only [normalize_phone_number]
  rw [normChars_no_plus s.data h]

/-- Claim C7 amended witness. -/
theorem normalize_agrees_with_digit_strip_witness :
    normalize_phone_number "98-76-54-32-10"
      = normalize_phone_number ⟨("98-76-54-32-10" : String).data.filter isDigitChar⟩ :=
  normalize_agrees_with_digit_strip_when_no_plus "98-76-54-32-10" (by decide)

/-- Helper: an E.164-shaped character list is a fixed point of `normChars`. -/
theorem normChars_fixes_e164 (l : List Char) (h : isE164Chars l = true) :
    normChars l = some l := by
  cases l with
  | nil => simp [isE164Chars] at h
  | cons c tail =>
    cases tail with
    | nil => simp [isE164Chars] at h
    | cons d rest =>
      have h' := h
      simp only [isE164Chars, Bool.and_eq_true, beq_iff_eq,
        decide_eq_true_eq, List.all_eq_true] at h'
      obtain ⟨⟨⟨⟨⟨hc, hd1⟩, hd9⟩, hall⟩, h6⟩, h14⟩ := h'
      subst hc
      have hddig : isDigitChar d = true := by
        simp only [isDigitChar, Bool.and_eq_true, decide_eq_true_eq]
        exact ⟨le_trans (by decide) hd1, le_trans hd9 (by decide)⟩
      have hfilter : ('+' :: d :: rest).filter keepDialChar = '+' :: d :: rest := by
        apply List.filter_eq_self.mpr
        intro a ha
        rcases List.mem_cons.mp ha with rfl | ha'
        · simp [keepDialChar]
        · rcases List.mem_cons.mp ha' with rfl | ha''
          · simp [keepDialChar, hddig]
          · simp [keepDialChar, hall a ha'']
      have hnoten : isTenDigits ('+' :: d :: rest) = false := by
        simp [isTenDigits, isDigitChar]
      simp only [normChars, List.isEmpty_cons, Bool.false_eq_true, if_false,
        hfilter, hnoten, startsWithPlus, beq_self_eq_true, if_true, h]

/-- Claim C8: for every string that starts with `+` and matches the E.164
shape, `normalize_phone_number` is idempotent: normalizing its own output
gives the same result. -/
theorem normalize_idempotent_on_e164 (s : String)
    (hplus : startsWithPlus s.data = true) (h : isE164Chars s.data = true) :
    (normalize_phone_number s).bind normalize_phone_number
      = normalize_phone_number s := by
  obtain ⟨l⟩ := s
  have hfix : normChars l = some l := normChars_fixes_e164 l h
  simp [normalize_phone_number, hfix]

/-- Claim C8 witness. -/
theorem normalize_idempotent_on_e164_witness :
    (normalize_phone_number "+919876543210").bind normalize_phone_number
      = normalize_phone_number "+919876543210" :=
  normalize_idempotent_on_e164 "+919876543210" (by decide) (by decide)

/-- Outcome of one invocation of `ctx.api.sip.create_sip_participant`:
success, an `api.TwirpError` (the only exception class the loop catches),
or any other exception. -/
inductive AttemptOutcome where
  | success
  | twirpError (msg : String)
  | otherError (msg : String)
deriving DecidableEq

/-- How `create_sip_participant_with_retry` terminates: normal return after
a successful attempt, `RuntimeError` after exhausting the retries, or an
uncaught exception propagating out of the loop. -/
inductive DialResult where
  | connected
  | dialFailure (msg : String)
  | raised (msg : String)
deriving DecidableEq

/-- Trace of one run of the dial loop: final result, the `asyncio.sleep`
durations performed between attempts, and how many times the SIP
participant-creation operation was invoked. -/
structure DialTrace where
  result : DialResult
  sleeps : List Nat
  attempts : Nat
deriving DecidableEq

/-- Message of the `RuntimeError` raised on exhaustion (line 163). -/
def dialFailMsg : String := "Failed to connect SIP participant after retries."

/-- The `for i in range(max_retries)` loop of
`create_sip_participant_with_retry` (lines 145-162).  `i` is the current
attempt index and the second argument the number of attempts remaining
(including the current one): `except api.TwirpError` retries, sleeping
`2 ** i` unless this was the last attempt; any other exception escapes. -/
def dialLoop (op : Nat → AttemptOutcome) : Nat → Nat → DialTrace
  | _, 0 => ⟨.dialFailure dialFailMsg, [], 0⟩
  | i, r + 1 =>
    match op i with
    | .success => ⟨.connected, [], 1⟩
    | .otherError m => ⟨.raised m, [], 1⟩
    | .twirpError _ =>
      if r = 0 then ⟨.dialFailure dialFailMsg, [], 1⟩
      else
        let t := dialLoop op (i + 1) r
        ⟨t.result, 2 ^ i :: t.sleeps, t.attempts + 1⟩

/-- `create_sip_participant_with_retry` from `src/agent.py` (lines 144-163),
parameterized by the behaviour `op` of the SIP participant-creation call
(attempt index to outcome) and the retry bound (`max_retries = 3` at the
call site in `entrypoint`). -/
def create_sip_participant_with_retry (op : Nat → AttemptOutcome)
    (max_retries : Nat) : DialTrace :=
  dialLoop op 0 max_retries

/-- Claim C1: with all 3 attempts failing with `TwirpError`, the operation
is invoked exactly 3 times, the loop sleeps 1 and 2 units (that is,
`2 ^ i` after failed attempt index `i` for every attempt but the last), and
a terminal `RuntimeError` carrying exactly the message
"Failed to connect SIP participant after retries." results; and if some
attempt `j` succeeds after `TwirpError` failures, the loop returns
immediately with `j + 1` invocations and no further attempt. -/
theorem dial_retry_exhaustion_and_early_success :
    (∀ op : Nat → AttemptOutcome, (∀ i, i < 3 → ∃ m, op i = .twirpError m) →
      create_sip_participant_with_retry op 3
        = ⟨.dialFailure "Failed to connect SIP participant after retries.", [1, 2], 3⟩)
    ∧ (∀ op : Nat → AttemptOutcome, ∀ j, j < 3 →
        (∀ i, i < j → ∃ m, op i = .twirpError m) → op j = .success →
        create_sip_participant_with_retry op 3
          = ⟨.connected, (List.range j).map (2 ^ ·), j + 1⟩) := by
  constructor
  · intro op hfail
    obtain ⟨m0, h0⟩ := hfail 0 (by omega)
    obtain ⟨m1, h1⟩ := hfail 1 (by omega)
    obtain ⟨m2, h2⟩ := hfail 2 (by omega)
    simp [create_sip_participant_with_retry, dialLoop, h0, h1, h2, dialFailMsg]
  · intro op j hj hbefore hsucc
    interval_cases j
    · simp [create_sip_participant_with_retry, dialLoop, hsucc]
    · obtain ⟨m0, h0⟩ := hbefore 0 (by omega)
      simp [create_sip_participant_with_retry, dialLoop, h0, hsucc,
        List.range_succ]
    · obtain ⟨m0, h0⟩ := hbefore 0 (by omega)
      obtain ⟨m1, h1⟩ := hbefore 1 (by omega)
      simp [create_sip_participant_with_retry, dialLoop, h0, h1, hsucc,
        List.range_succ]

/-- Claim C1 witness. -/
theorem dial_retry_exhaustion_and_early_success_witness :
    create_sip_participant_with_retry (fun _ => .twirpError "e") 3
      = ⟨.dialFailure "Failed to connect SIP participant after retries.", [1, 2], 3⟩
    ∧ create_sip_participant_with_retry
        (fun i => if i = 1 then .success else .twirpError "e") 3
      = ⟨.connected, (List.range 1).map (2 ^ ·), 2⟩ :=
  ⟨dial_retry_exhaustion_and_early_success.1 _ (fun i _ => ⟨"e", rfl⟩),
   dial_retry_exhaustion_and_early_success.2 _ 1 (by omega)
     (fun i hi => ⟨"e", by interval_cases i; rfl⟩) rfl⟩

/-- Claim C10: only `TwirpError` is caught and retried — if attempt `j`
raises any other exception (after `TwirpError` failures on the earlier
attempts), that exception propagates out of
`create_sip_participant_with_retry` with exactly `j + 1` invocations made
and no backoff sleep after the raising attempt (the sleeps are exactly
those of the earlier failed attempts), however many attempts remain. -/
theorem dial_other_exception_propagates (op : Nat → AttemptOutcome)
    (j : Nat) (m : String) (hj : j < 3)
    (hbefore : ∀ i, i < j → ∃ e, op i = .twirpError e)
    (hat : op j = .otherError m) :
    create_sip_participant_with_retry op 3
      = ⟨.raised m, (List.range j).map (2 ^ ·), j + 1⟩ := by
  interval_cases j
  · simp [create_sip_participant_with_retry, dialLoop, hat]
  · obtain ⟨m0, h0⟩ := hbefore 0 (by omega)
    simp [create_sip_participant_with_retry, dialLoop, h0, hat,
      List.range_succ]
  · obtain ⟨m0, h0⟩ := hbefore 0 (by omega)
    obtain ⟨m1, h1⟩ := hbefore 1 (by omega)
    simp [create_sip_participant_with_retry, dialLoop, h0, h1, hat,
      List.range_succ]

/-- Claim C10 witness. -/
theorem dial_other_exception_propagates_witness :
    create_sip_participant_with_retry
      (fun i => if i = 0 then .twirpError "t" else .otherError "boom") 3
      = ⟨.raised "boom", (List.range 1).map (2 ^ ·), 2⟩ :=
  dial_other_exception_propagates _ 1 "boom" (by omega)
    (fun i hi => ⟨"t", by interval_cases i; rfl⟩) rfl

/-- How `hangup_call_with_retry` returns: either the room deletion
succeeded on some attempt (logging success), or every attempt failed and
the final "Failed to hang up after all retries" message was logged. -/
inductive HangupOutcome where
  | hungUp (attempts : Nat)
  | failedAllRetries
deriving DecidableEq

/-- The `for i in range(max_retries)` loop of `hangup_call_with_retry`
(lines 76-86), written in the `Except` monad so that an exception escaping
to the caller would surface as an `.error` value.  The behaviour `op` maps
the attempt index to the outcome of `get_job_context` + `delete_room`
(`.error` models any raised exception); `except Exception` catches it,
sleeping `2 ** i` unless this was the last attempt.  The second argument is
the number of attempts remaining.  Returns the outcome together with the
list of sleep durations performed. -/
def hangupLoop (op : Nat → Except String Unit) :
    Nat → Nat → Except String (HangupOutcome × List Nat)
  | _, 0 => .ok (.failedAllRetries, [])
  | i, r + 1 =>
    match op i with
    | .ok _ => .ok (.hungUp (i + 1), [])
    | .error _ =>
      if r = 0 then .ok (.failedAllRetries, [])
      else
        match hangupLoop op (i + 1) r with
        | .ok (o, s) => .ok (o, 2 ^ i :: s)
        | .error e => .error e

/-- `hangup_call_with_retry` from `src/agent.py` (lines 75-86),
parameterized by the behaviour `op` of the room-deletion operation and the
retry bound (`max_retries = 3` by default). -/
def hangup_call_with_retry (op : Nat → Except String Unit)
    (max_retries : Nat) : Except String (HangupOutcome × List Nat) :=
  hangupLoop op 0 max_retries

/-- Helper: the hangup loop never produces an `.error`: every exception of
the underlying operation is caught inside the loop. -/
theorem hangupLoop_isOk (op : Nat → Except String Unit) :
    ∀ r i, ∃ v, hangupLoop op i r = .ok v := by
  intro r
  induction r with
  | zero => intro i; exact ⟨(.failedAllRetries, []), rfl⟩
  | succ r ih =>
    intro i
    cases hop : op i with
    | ok u => exact ⟨(.hungUp (i + 1), []), by simp [hangupLoop, hop]⟩
    | error e =>
      by_cases hr : r = 0
      · subst hr
        exact ⟨(.failedAllRetries, []), by simp [hangupLoop, hop]⟩
      · obtain ⟨⟨o, s⟩, hv⟩ := ih (i + 1)
        exact ⟨(o, 2 ^ i :: s), by simp [hangupLoop, hop, hr, hv]⟩

/-- Claim C2: for every behaviour of the room-deletion operation
`hangup_call_with_retry` returns normally (never an `.error` to its
caller); in particular when all 3 attempts raise, it sleeps 1 and 2 units,
logs the final failure and returns normally. -/
theorem hangup_never_raises :
    (∀ op : Nat → Except String Unit, ∀ n, ∃ v, hangup_call_with_retry op n = .ok v)
    ∧ (∀ op : Nat → Except String Unit, (∀ i, ∃ e, op i = .error e) →
        hangup_call_with_retry op 3 = .ok (.failedAllRetries, [1, 2])) := by
  constructor
  · intro op n
    exact hangupLoop_isOk op n 0
  · intro op hfail
    obtain ⟨e0, h0⟩ := hfail 0
    obtain ⟨e1, h1⟩ := hfail 1
    obtain ⟨e2, h2⟩ := hfail 2
    simp [hangup_call_with_retry, hangupLoop, h0, h1, h2]

/-- Claim C2 witness. -/
theorem hangup_never_raises_witness :
    (∃ v, hangup_call_with_retry (fun _ => .error "gone") 3 = .ok v)
    ∧ hangup_call_with_retry (fun _ => .error "gone") 3
        = .ok (.failedAllRetries, [1, 2]) :=
  ⟨hangup_never_raises.1 _ 3, hangup_never_raises.2 _ (fun _ => ⟨"gone", rfl⟩)⟩

/-- `CallState` dataclass from `src/agent.py` (lines 89-97); the float
timestamp is modelled as a natural number of time units. -/
structure CallState where
  customer_name : Option String
  phone_number : Option String
  is_interested : Bool
  payment_amount : Option String
  interaction_count : Nat
  call_start_time : Nat
  payment_confirmed : Bool
deriving DecidableEq

/-- The dataclass defaults of `CallState` (with `call_start_time = 0`). -/
def initState : CallState :=
  { customer_name := none
    phone_number := none
    is_interested := false
    payment_amount := none
    interaction_count := 0
    call_start_time := 0
    payment_confirmed := false }

/-- Result of `session.listen(timeout=10)`: `timeout` models a falsy
`user_response` (no transcription before the timeout), `heard t` a
transcription object whose `.text` is `t` (possibly empty). -/
inductive ListenResult where
  | timeout
  | heard (text : String)
deriving DecidableEq

/-- Models Python `str.lower()` on the ASCII range. -/
def pyLower (s : String) : String := ⟨s.data.map Char.toLower⟩

/-- Models the Python substring operator `needle in hay`. -/
def inclChars (n : List Char) : List Char → Bool
  | [] => n.isEmpty
  | c :: cs => n.isPrefixOf (c :: cs) || inclChars n cs

/-- `needle in hay` on strings. -/
def strIncludes (needle hay : String) : Bool := inclChars needle.data hay.data

-- Sanity checks for the substring model.
example : strIncludes "yes" "yes speaking" = true := rfl
example : strIncludes "no" "not now" = true := rfl
example : strIncludes "yes" "maybe later" = false := rfl
example : strIncludes "no" "maybe later" = false := rfl

/-- The four utterances the agent can speak after listening. -/
inductive Branch where
  | A
  | B
  | C
  | D
deriving DecidableEq

/-- Greeting script spoken by `GreetingAgent.on_start` (lines 119-123). -/
def greetingText : String :=
  "Hello! This is Emily from SecureCard Financial Services. I\x27m calling to remind you about your upcoming payment. Can I confirm that I\x27m speaking to the account holder?"

/-- Branch A reply (line 132): payment amount, offer to proceed. -/
def branchAText : String :=
  "Great! Your balance due is $250. Would you like to make the payment now?"

/-- Branch B reply (line 134): polite acknowledgement. -/
def branchBText : String :=
  "No problem. I’ll make a note that the account holder isn’t available right now."

/-- Branch C reply (line 136): asks for repetition. -/
def branchCText : String :=
  "I didn\x27t quite catch that. Could you please repeat?"

/-- Branch D reply (line 138): no response heard. -/
def branchDText : String :=
  "I didn’t hear a response. Let’s try again another time."

/-- Branch selection of `GreetingAgent.on_start` (lines 127-138): the
guard `if user_response and user_response.text:` sends a falsy response
object AND an empty `.text` to the else-branch D; otherwise the lowered
text is tested for the substring "yes" first, then "no", else branch C. -/
def chooseBranch : ListenResult → Branch
  | .timeout => .D
  | .heard t =>
    if t.isEmpty then .D
    else
      let reply := pyLower t
      if strIncludes "yes" reply then .A
      else if strIncludes "no" reply then .B
      else .C

/-- Reply text spoken for each branch. -/
def branchText : Branch → String
  | .A => branchAText
  | .B => branchBText
  | .C => branchCText
  | .D => branchDText

/-- Trace of one run of `GreetingAgent.on_start`: the utterances spoken in
order, the branch taken, the final call state, the timeout passed to
`session.listen`, the pause before teardown, and whether
`hangup_call_with_retry` was invoked. -/
structure OnStartTrace where
  spoken : List String
  branch : Branch
  state : CallState
  listen_timeout : Nat
  pause_after : Nat
  hangup_invoked : Bool
deriving DecidableEq

/-- `GreetingAgent.on_start` from `src/agent.py` (lines 113-141): speaks
the greeting, increments `interaction_count`, listens with timeout 10,
speaks the branch reply chosen by `chooseBranch`, sleeps 2 units and hangs
up. -/
def GreetingAgent_on_start (st : CallState) (listen : ListenResult) :
    OnStartTrace :=
  let b := chooseBranch listen
  { spoken := [greetingText, branchText b]
    branch := b
    state := { st with interaction_count := st.interaction_count + 1 }
    listen_timeout := 10
    pause_after := 2
    hangup_invoked := true }

/-- Claim C4: for every non-empty transcription received within the
10-unit listen timeout the agent branches by case-insensitive substring
match — "yes" gives branch A with its payment-amount reply, "no" without
"yes" gives branch B, neither gives branch C — and a timed-out listen
gives branch D with its distinct no-response message. -/
theorem dialogue_branching :
    (∀ st t, t.isEmpty = false → strIncludes "yes" (pyLower t) = true →
      (GreetingAgent_on_start st (.heard t)).branch = .A ∧
      (GreetingAgent_on_start st (.heard t)).spoken = [greetingText, branchAText])
    ∧ (∀ st t, t.isEmpty = false → strIncludes "yes" (pyLower t) = false →
        strIncludes "no" (pyLower t) = true →
        (GreetingAgent_on_start st (.heard t)).branch = .B ∧
        (GreetingAgent_on_start st (.heard t)).spoken = [greetingText, branchBText])
    ∧ (∀ st t, t.isEmpty = false → strIncludes "yes" (pyLower t) = false →
        strIncludes "no" (pyLower t) = false →
        (GreetingAgent_on_start st (.heard t)).branch = .C ∧
        (GreetingAgent_on_start st (.heard t)).spoken = [greetingText, branchCText])
    ∧ (∀ st, (GreetingAgent_on_start st .timeout).branch = .D ∧
        (GreetingAgent_on_start st .timeout).spoken = [greetingText, branchDText])
    ∧ (∀ st l, (GreetingAgent_on_start st l).listen_timeout = 10)
    ∧ branchDText ∉ [branchAText, branchBText, branchCText] := by
  refine ⟨?_, ?_, ?_, ?_, ?_, ?_⟩
  · intro st t hne hyes
    constructor <;>
      simp [GreetingAgent_on_start, chooseBranch, branchText, hne, hyes]
  · intro st t hne hyes hno
    constructor <;>
      simp [GreetingAgent_on_start, chooseBranch, branchText, hne, hyes, hno]
  · intro st t hne hyes hno
    constructor <;>
      simp [GreetingAgent_on_start, chooseBranch, branchText, hne, hyes, hno]
  · intro st
    exact ⟨rfl, rfl⟩
  · intro st l
    rfl
  · decide

/-- Claim C4 witness. -/
theorem dialogue_branching_witness :
    ((GreetingAgent_on_start initState (.heard "Yes speaking")).branch = .A ∧
      (GreetingAgent_on_start initState (.heard "Yes speaking")).spoken
        = [greetingText, branchAText])
    ∧ ((GreetingAgent_on_start initState (.heard "not now")).branch = .B ∧
      (GreetingAgent_on_start initState (.heard "not now")).spoken
        = [greetingText, branchBText])
    ∧ ((GreetingAgent_on_start initState (.heard "maybe later")).branch = .C ∧
      (GreetingAgent_on_start initState (.heard "maybe later")).spoken
        = [greetingText, branchCText])
    ∧ ((GreetingAgent_on_start initState .timeout).branch = .D ∧
      (GreetingAgent_on_start initState .timeout).spoken
        = [greetingText, branchDText]) :=
  ⟨dialogue_branching.1 initState "Yes speaking" rfl rfl,
   dialogue_branching.2.1 initState "not now" rfl rfl rfl,
   dialogue_branching.2.2.1 initState "maybe later" rfl rfl rfl,
   dialogue_branching.2.2.2.1 initState⟩

/-- Claim C5 counterexample: an empty transcription reaches branch D (the
no-response message), not branch C. -/
theorem empty_text_reaches_d_not_c :
    (GreetingAgent_on_start initState (.heard "")).branch = .D ∧
    (GreetingAgent_on_start initState (.heard "")).branch ≠ .C :=
  ⟨rfl, fun h => nomatch h⟩

/-- Claim C5 amended: a received transcription whose text is empty is
treated exactly like a timed-out listen — `if user_response and
user_response.text:` is false for empty text — so the agent reaches branch
D (the no-response message), not branch C. -/
theorem empty_text_same_as_timeout (st : CallState) :
    GreetingAgent_on_start st (.heard "") = GreetingAgent_on_start st .timeout ∧
    (GreetingAgent_on_start st (.heard "")).branch = .D :=
  ⟨rfl, rfl⟩

/-- Claim C9 counterexample: in a run where the agent speaks twice
(greeting plus branch reply), `interaction_count` ends at 1, not 2 — it is
not incremented for the branch utterance. -/
theorem interaction_count_not_per_utterance :
    (GreetingAgent_on_start initState (.heard "yes")).spoken.length = 2 ∧
    (GreetingAgent_on_start initState (.heard "yes")).state.interaction_count = 1 ∧
    (GreetingAgent_on_start initState (.heard "yes")).state.interaction_count ≠ 2 :=
  ⟨rfl, rfl, by decide⟩

/-- Claim C9 amended: `interaction_count` is incremented exactly once per
dialogue run, after the greeting (so it equals 1 when starting from 0);
the branch reply is spoken without a further increment, although every run
speaks exactly two utterances. -/
theorem interaction_count_once_per_run (st : CallState) (l : ListenResult) :
    (GreetingAgent_on_start st l).state.interaction_count
        = st.interaction_count + 1 ∧
    (GreetingAgent_on_start st l).spoken.length = 2 :=
  ⟨rfl, rfl⟩

/-- Network-facing actions of `entrypoint`, in program order:
`ctx.connect()`, starting the dialogue session task, each invocation of
the SIP participant-creation API, `ctx.wait_for_participant`, and
`ctx.shutdown()` from the top-level exception handler. -/
inductive NetAction where
  | connect
  | sessionStart
  | sipCreateAttempt (i : Nat)
  | waitParticipant (identity : String)
  | shutdown
deriving DecidableEq

/-- How `entrypoint` returns. -/
inductive EntryOutcome where
  | abortedInvalidNumber
  | completed
  | errorShutdown
deriving DecidableEq

/-- Python `a or b` on optional strings: an empty string is falsy and
falls through to the next alternative. -/
def pyOr (a b : Option String) : Option String :=
  match a with
  | some s => if s.isEmpty then b else some s
  | none => b

/-- The flexible phone-key chain of `entrypoint` (lines 182-187):
`dial_info.get("phone_number") or .get("phoneNumber") or .get("phone") or
.get("number")`, with `dial_info` modelled as the parsed metadata mapping
(the empty mapping models missing or invalid JSON metadata). -/
def getPhoneNumber (dial_info : String → Option String) : Option String :=
  pyOr (dial_info "phone_number")
    (pyOr (dial_info "phoneNumber")
      (pyOr (dial_info "phone") (dial_info "number")))

/-- `phone_number = normalize_phone_number(phone_number)` (line 189):
`normalize_phone_number` returns `None` for a `None` argument (its
leading falsy check). -/
def resolvedPhone (dial_info : String → Option String) : Option String :=
  match getPhoneNumber dial_info with
  | none => none
  | some p => normalize_phone_number p

/-- `entrypoint` from `src/agent.py` (lines 166-243), as the ordered trace
of network actions it performs: if the resolved phone number is falsy it
returns at line 193, before `ctx.connect()`; otherwise it connects, starts
the session task, dials with `create_sip_participant_with_retry` (3
attempts), and on dial success waits for the participant keyed by the
number; a dial failure or propagated exception reaches the top-level
handler, which calls `ctx.shutdown()`. -/
def entrypoint (dial_info : String → Option String)
    (sipOp : Nat → AttemptOutcome) : List NetAction × EntryOutcome :=
  match resolvedPhone dial_info with
  | none => ([], .abortedInvalidNumber)
  | some p =>
    let t := create_sip_participant_with_retry sipOp 3
    let dialActions := (List.range t.attempts).map NetAction.sipCreateAttempt
    match t.result with
    | .connected =>
        ([.connect, .sessionStart] ++ dialActions ++ [.waitParticipant p],
          .completed)
    | _ => ([.connect, .sessionStart] ++ dialActions ++ [.shutdown],
        .errorShutdown)

-- Sanity checks: empty metadata aborts; a good number dials.
example : entrypoint (fun _ => none) (fun _ => .success)
    = ([], .abortedInvalidNumber) := rfl
example :
    entrypoint (fun k => if k == "phoneNumber" then some "9876543210" else none)
      (fun _ => .success)
    = ([.connect, .sessionStart, .sipCreateAttempt 0,
        .waitParticipant "+919876543210"], .completed) := rfl

/-- Claim C3: whenever the metadata yields no phone number or one that
`normalize_phone_number` rejects, `entrypoint` returns before any network
action: its action trace is empty — no room connection, no SIP
participant-creation call, no dialogue session start. -/
theorem entrypoint_aborts_before_network (dial_info : String → Option String)
    (sipOp : Nat → AttemptOutcome) (h : resolvedPhone dial_info = none) :
    entrypoint dial_info sipOp = ([], .abortedInvalidNumber) := by
  simp [entrypoint, h]

/-- Claim C3 witness: empty metadata (no phone field). -/
theorem entrypoint_aborts_before_network_witness :
    entrypoint (fun _ => none) (fun _ => .success)
      = ([], .abortedInvalidNumber) :=
  entrypoint_aborts_before_network (fun _ => none) (fun _ => .success) rfl

end Bankbot
